import Mathlib

/-!
Verification of the handwriting segmentation workspace.

Shallow embedding of the job-status capability function, the letterbox
geometry, the draw-gesture commit pipeline, the bounding-box collection
operations, and the enhancement-selection handlers, translated from the
TypeScript sources (`lib/utils.tsx`, `useImageLoader.ts`, `useDrawing.ts`,
`useSegmentationData.ts`, `segment/page.tsx`).  JavaScript numbers are
modelled as rationals, fallible paths as `Option`, and each asynchronous
handler as an explicit transition on a state structure.
-/

namespace Handwriting

/-- Flags returned by `getButtonVisibility` in `lib/utils.tsx`. -/
structure ButtonVisibility where
  canDownloadInitialTex : Bool
  canDownloadFinalTex : Bool
  canDownloadPdf : Bool
  canDownloadTex : Bool
  canSegment : Bool
  canCompile : Bool
  canViewTex : Bool
deriving DecidableEq, Repr

/-- Embedding of `getButtonVisibility` (lib/utils.tsx, lines 93-122).
`['a','b'].includes(s)` is rendered as a decidable disjunction of string
equalities; the function is total on all status strings, so it never throws. -/
def getButtonVisibility (status : String) : ButtonVisibility :=
  let canDownloadPdf := decide (status = "compilation_complete" ∨ status = "completed")
  let canDownloadTex := canDownloadPdf
  let canViewTex :=
    !(decide (status = "pending" ∨ status = "rendering" ∨
              status = "processing_vlm" ∨ status = "failed")) && !canDownloadPdf
  let canSegment := decide (status = "awaiting_segmentation")
  let canCompile := decide (status = "segmentation_complete")
  { canDownloadInitialTex := false
    canDownloadFinalTex := false
    canDownloadPdf := canDownloadPdf
    canDownloadTex := canDownloadTex
    canSegment := canSegment
    canCompile := canCompile
    canViewTex := canViewTex }

/-- The enumerated job-status state set of the spec (section 4.1). -/
def knownStatuses : List String :=
  ["pending", "rendering", "processing_vlm", "awaiting_segmentation",
   "segmentation_complete", "compilation_pending", "compilation_complete",
   "compilation_failed", "refinement_in_progress", "refinement_complete",
   "refinement_failed", "failed", "completed"]

/-- C1: for every status in the enumerated state set, `getButtonVisibility`
returns `canDownloadPdf`/`canDownloadTex` true iff the status is
`compilation_complete` or `completed`; `canSegment` true iff
`awaiting_segmentation`; `canCompile` true iff `segmentation_complete`; and
`canViewTex` true iff the status is outside
`{pending, rendering, processing_vlm, failed}` and downloads are unavailable. -/
theorem getButtonVisibility_capabilities (status : String) (h : status ∈ knownStatuses) :
    ((getButtonVisibility status).canDownloadPdf = true ↔
      (status = "compilation_complete" ∨ status = "completed")) ∧
    ((getButtonVisibility status).canDownloadTex = true ↔
      (status = "compilation_complete" ∨ status = "completed")) ∧
    ((getButtonVisibility status).canSegment = true ↔ status = "awaiting_segmentation") ∧
    ((getButtonVisibility status).canCompile = true ↔ status = "segmentation_complete") ∧
    ((getButtonVisibility status).canViewTex = true ↔
      (¬(status = "pending" ∨ status = "rendering" ∨
         status = "processing_vlm" ∨ status = "failed") ∧
       ¬(status = "compilation_complete" ∨ status = "completed"))) := by
  simp only [knownStatuses, List.mem_cons, List.not_mem_nil, or_false] at h
  rcases h with rfl | rfl | rfl | rfl | rfl | rfl | rfl | rfl | rfl | rfl | rfl | rfl | rfl <;>
    decide

/-- Witness for C1 at the concrete status `awaiting_segmentation`. -/
theorem getButtonVisibility_capabilities_witness :
    "awaiting_segmentation" ∈ knownStatuses ∧
    (((getButtonVisibility "awaiting_segmentation").canDownloadPdf = true ↔
      ("awaiting_segmentation" = "compilation_complete" ∨
       "awaiting_segmentation" = "completed")) ∧
    ((getButtonVisibility "awaiting_segmentation").canDownloadTex = true ↔
      ("awaiting_segmentation" = "compilation_complete" ∨
       "awaiting_segmentation" = "completed")) ∧
    ((getButtonVisibility "awaiting_segmentation").canSegment = true ↔
      "awaiting_segmentation" = "awaiting_segmentation") ∧
    ((getButtonVisibility "awaiting_segmentation").canCompile = true ↔
      "awaiting_segmentation" = "segmentation_complete") ∧
    ((getButtonVisibility "awaiting_segmentation").canViewTex = true ↔
      (¬("awaiting_segmentation" = "pending" ∨ "awaiting_segmentation" = "rendering" ∨
         "awaiting_segmentation" = "processing_vlm" ∨ "awaiting_segmentation" = "failed") ∧
       ¬("awaiting_segmentation" = "compilation_complete" ∨
         "awaiting_segmentation" = "completed")))) :=
  ⟨by decide, getButtonVisibility_capabilities "awaiting_segmentation" (by decide)⟩

/-- C2 counterexample: the status string `archived` is outside the enumerated
state set, yet `getButtonVisibility` returns `canViewTex = true` there, so the
claim that all capability flags are false for unknown statuses fails. -/
theorem getButtonVisibility_unknown_counterexample :
    "archived" ∉ knownStatuses ∧ (getButtonVisibility "archived").canViewTex = true := by
  decide

/-- C2 (amended): for every status string outside the enumerated state set,
`getButtonVisibility` returns `canSegment`, `canCompile`, `canDownloadPdf` and
`canDownloadTex` false but `canViewTex` true, and (being a total function)
does not throw. -/
theorem getButtonVisibility_unknown_status (status : String) (h : status ∉ knownStatuses) :
    (getButtonVisibility status).canViewTex = true ∧
    (getButtonVisibility status).canSegment = false ∧
    (getButtonVisibility status).canCompile = false ∧
    (getButtonVisibility status).canDownloadPdf = false ∧
    (getButtonVisibility status).canDownloadTex = false := by
  simp only [knownStatuses, List.mem_cons, List.not_mem_nil, or_false, not_or] at h
  obtain ⟨hpend, hrend, hvlm, hawait, hseg, hcpend, hcc, hcf, hrip, hrc, hrf, hfail, hcomp⟩ := h
  simp [getButtonVisibility, hpend, hrend, hvlm, hawait, hseg, hcc, hcomp, hfail]

/-- Witness for the amended C2 at the concrete status `archived`. -/
theorem getButtonVisibility_unknown_status_witness :
    "archived" ∉ knownStatuses ∧
    ((getButtonVisibility "archived").canViewTex = true ∧
     (getButtonVisibility "archived").canSegment = false ∧
     (getButtonVisibility "archived").canCompile = false ∧
     (getButtonVisibility "archived").canDownloadPdf = false ∧
     (getButtonVisibility "archived").canDownloadTex = false) :=
  ⟨by decide, getButtonVisibility_unknown_status "archived" (by decide)⟩

/-- Normalized bounding box as defined in `useSegmentationData.ts`. -/
structure BoundingBox where
  x : ℚ
  y : ℚ
  width : ℚ
  height : ℚ
  label : String
  pageNumber : ℕ
  enhancedS3Path : Option String := none
  useEnhanced : Option Bool := none
deriving DecidableEq, Repr

/-- In-progress gesture state (`DrawingBox` in `useDrawing.ts`): start and end
points in container-pixel space plus the task label and page. -/
structure DrawingBox where
  startX : ℚ
  startY : ℚ
  endX : ℚ
  endY : ℚ
  label : String
  pageNumber : ℕ
deriving DecidableEq, Repr

/-- `Math.min(newBox.startX, newBox.endX)` in `handleDrawEnd`. -/
def rawStartX (b : DrawingBox) : ℚ := min b.startX b.endX

/-- `Math.min(newBox.startY, newBox.endY)` in `handleDrawEnd`. -/
def rawStartY (b : DrawingBox) : ℚ := min b.startY b.endY

/-- Raw pixel width of the min/max rectangle of the gesture. -/
def rawWidth (b : DrawingBox) : ℚ := max b.startX b.endX - min b.startX b.endX

/-- Raw pixel height of the min/max rectangle of the gesture. -/
def rawHeight (b : DrawingBox) : ℚ := max b.startY b.endY - min b.startY b.endY

/-- `clampedX = Math.max(0, Math.min(1, (startX - imageOffset.x) / renderedImageSize.width))`. -/
def clampedX (b : DrawingBox) (renderedW offsetX : ℚ) : ℚ :=
  max 0 (min 1 ((rawStartX b - offsetX) / renderedW))

/-- `clampedY = Math.max(0, Math.min(1, (startY - imageOffset.y) / renderedImageSize.height))`. -/
def clampedY (b : DrawingBox) (renderedH offsetY : ℚ) : ℚ :=
  max 0 (min 1 ((rawStartY b - offsetY) / renderedH))

/-- `clampedWidth = Math.max(0, Math.min(1 - clampedX, width / renderedImageSize.width))`. -/
def clampedWidth (b : DrawingBox) (renderedW offsetX : ℚ) : ℚ :=
  max 0 (min (1 - clampedX b renderedW offsetX) (rawWidth b / renderedW))

/-- `clampedHeight = Math.max(0, Math.min(1 - clampedY, height / renderedImageSize.height))`. -/
def clampedHeight (b : DrawingBox) (renderedH offsetY : ℚ) : ℚ :=
  max 0 (min (1 - clampedY b renderedH offsetY) (rawHeight b / renderedH))

/-- Embedding of the commit step of `handleDrawEnd` (useDrawing.ts, lines
105-168): the gesture rectangle is kept only when its raw width and height
both exceed 5 px and its clamped normalized width and height both exceed
0.01; `none` models the discard paths (no call to the add callback). -/
def handleDrawEnd (b : DrawingBox) (renderedW renderedH offsetX offsetY : ℚ) :
    Option BoundingBox :=
  if rawWidth b > 5 ∧ rawHeight b > 5 then
    if clampedWidth b renderedW offsetX > 1/100 ∧ clampedHeight b renderedH offsetY > 1/100 then
      some { x := clampedX b renderedW offsetX
             y := clampedY b renderedH offsetY
             width := clampedWidth b renderedW offsetX
             height := clampedHeight b renderedH offsetY
             label := b.label
             pageNumber := b.pageNumber }
    else none
  else none

/-- Embedding of the letterbox computation in `calculateSizes`
(useImageLoader.ts, lines 26-62), returning (renderedWidth, renderedHeight);
the zero guard mirrors the `!img.naturalWidth || !img.naturalHeight` branch. -/
def calculateSizes (containerW containerH naturalW naturalH : ℚ) : ℚ × ℚ :=
  if naturalW = 0 ∨ naturalH = 0 then (0, 0)
  else
    let imgAspect := naturalW / naturalH
    let containerAspect := containerW / containerH
    if imgAspect > containerAspect then
      (containerW, containerW / imgAspect)
    else
      (containerH * imgAspect, containerH)

/-- Embedding of the `imageOffset` memo (segment/page.tsx, lines 191-199):
zero when any dimension is falsy, otherwise the centering offset. -/
def imageOffset (containerW containerH renderedW renderedH : ℚ) : ℚ × ℚ :=
  if containerW = 0 ∨ containerH = 0 ∨ renderedW = 0 ∨ renderedH = 0 then (0, 0)
  else ((containerW - renderedW) / 2, (containerH - renderedH) / 2)

/-- C4: a completed draw gesture whose raw pixel width or height is below
5 px, or whose clamped normalized width or height is below 0.01, is discarded
by `handleDrawEnd`: the add callback is never invoked. -/
theorem handleDrawEnd_rejects_small (b : DrawingBox) (rw rh ox oy : ℚ)
    (h : rawWidth b < 5 ∨ rawHeight b < 5 ∨
         clampedWidth b rw ox < 1/100 ∨ clampedHeight b rh oy < 1/100) :
    handleDrawEnd b rw rh ox oy = none := by
  unfold handleDrawEnd
  split_ifs with h1 h2
  · exfalso
    rcases h with h | h | h | h
    · linarith [h1.1]
    · linarith [h1.2]
    · linarith [h2.1]
    · linarith [h2.2]
  · rfl
  · rfl

/-- Witness for C4: a 3 px-wide gesture is discarded. -/
theorem handleDrawEnd_rejects_small_witness :
    (rawWidth ⟨0, 0, 3, 100, "FIG-1", 1⟩ < 5 ∨
     rawHeight ⟨0, 0, 3, 100, "FIG-1", 1⟩ < 5 ∨
     clampedWidth ⟨0, 0, 3, 100, "FIG-1", 1⟩ 450 0 < 1/100 ∨
     clampedHeight ⟨0, 0, 3, 100, "FIG-1", 1⟩ 600 0 < 1/100) ∧
    handleDrawEnd ⟨0, 0, 3, 100, "FIG-1", 1⟩ 450 600 0 0 = none :=
  ⟨Or.inl (by norm_num [rawWidth, max_def, min_def]),
   handleDrawEnd_rejects_small ⟨0, 0, 3, 100, "FIG-1", 1⟩ 450 600 0 0
     (Or.inl (by norm_num [rawWidth, max_def, min_def]))⟩

/-- C5: every bounding box committed by `handleDrawEnd` satisfies the
clamping invariants 0 ≤ x, 0 ≤ y, x + width ≤ 1 and y + height ≤ 1, for every
gesture, rendered image size and image offset. -/
theorem handleDrawEnd_box_clamped (b : DrawingBox) (rw rh ox oy : ℚ) (bb : BoundingBox)
    (h : handleDrawEnd b rw rh ox oy = some bb) :
    0 ≤ bb.x ∧ 0 ≤ bb.y ∧ bb.x + bb.width ≤ 1 ∧ bb.y + bb.height ≤ 1 := by
  unfold handleDrawEnd at h
  split_ifs at h with h1 h2
  simp only [Option.some.injEq] at h
  subst h
  have hx0 : (0 : ℚ) ≤ clampedX b rw ox := le_max_left 0 _
  have hy0 : (0 : ℚ) ≤ clampedY b rh oy := le_max_left 0 _
  have hx1 : clampedX b rw ox ≤ 1 :=
    max_le (by norm_num) (min_le_left 1 _)
  have hy1 : clampedY b rh oy ≤ 1 :=
    max_le (by norm_num) (min_le_left 1 _)
  have hw : clampedWidth b rw ox ≤ 1 - clampedX b rw ox :=
    max_le (by linarith) (min_le_left _ _)
  have hh : clampedHeight b rh oy ≤ 1 - clampedY b rh oy :=
    max_le (by linarith) (min_le_left _ _)
  refine ⟨hx0, hy0, by simp only; linarith, by simp only; linarith⟩

/-- Evaluation helper: the full-image drag of the spec geometry commits the
unit box, for any task label. -/
theorem handleDrawEnd_full_drag (l : String) :
    handleDrawEnd ⟨175, 0, 625, 600, l, 1⟩ 450 600 175 0 =
      some { x := 0, y := 0, width := 1, height := 1, label := l, pageNumber := 1 } := by
  norm_num [handleDrawEnd, clampedX, clampedY, clampedWidth, clampedHeight,
            rawStartX, rawStartY, rawWidth, rawHeight, min_def, max_def]

/-- Witness for C5: a full-image drag commits the unit box, which satisfies
the clamping invariants. -/
theorem handleDrawEnd_box_clamped_witness :
    handleDrawEnd ⟨175, 0, 625, 600, "FIG-2", 1⟩ 450 600 175 0 =
      some { x := 0, y := 0, width := 1, height := 1, label := "FIG-2", pageNumber := 1 } ∧
    (0 ≤ (0 : ℚ) ∧ 0 ≤ (0 : ℚ) ∧ (0 : ℚ) + 1 ≤ 1 ∧ (0 : ℚ) + 1 ≤ 1) :=
  ⟨handleDrawEnd_full_drag "FIG-2",
   handleDrawEnd_box_clamped ⟨175, 0, 625, 600, "FIG-2", 1⟩ 450 600 175 0
     { x := 0, y := 0, width := 1, height := 1, label := "FIG-2", pageNumber := 1 }
     (handleDrawEnd_full_drag "FIG-2")⟩

/-- C8: for an 800×600 container and a 1200×1600 natural image the letterbox
computation is height-constrained with rendered size 450×600 and offset
(175, 0), and a drag from container pixel (175, 0) to (625, 600) commits the
normalized box with x = 0, y = 0, width = 1, height = 1. -/
theorem concrete_geometry_example :
    calculateSizes 800 600 1200 1600 = (450, 600) ∧
    imageOffset 800 600 450 600 = (175, 0) ∧
    handleDrawEnd ⟨175, 0, 625, 600, "DIAGRAM-1", 1⟩ 450 600 175 0 =
      some { x := 0, y := 0, width := 1, height := 1, label := "DIAGRAM-1", pageNumber := 1 } := by
  refine ⟨by norm_num [calculateSizes], by norm_num [imageOffset], handleDrawEnd_full_drag "DIAGRAM-1"⟩

/-- State owned by `useSegmentationData`: the ordered box collection and the
derived set of completed task labels. -/
structure SegmentationState where
  boundingBoxes : List BoundingBox
  completedTasks : Finset String
deriving DecidableEq

/-- Embedding of `addBoundingBox` (useSegmentationData.ts, lines 142-145). -/
def addBoundingBox (s : SegmentationState) (newBox : BoundingBox) : SegmentationState :=
  { boundingBoxes := s.boundingBoxes ++ [newBox]
    completedTasks := insert newBox.label s.completedTasks }

/-- Embedding of `removeBoundingBoxByIndex` (useSegmentationData.ts, lines
148-162).  `prevBoxes[indexToRemove]` is `undefined` exactly when the index
is not a valid position, in which case the state is returned unchanged;
otherwise the element is dropped (`filter(index !== indexToRemove)`) and the
completed set is recomputed from the remaining labels. -/
def removeBoundingBoxByIndex (s : SegmentationState) (indexToRemove : Int) : SegmentationState :=
  if 0 ≤ indexToRemove ∧ indexToRemove.toNat < s.boundingBoxes.length then
    let newBoxes := s.boundingBoxes.eraseIdx indexToRemove.toNat
    { boundingBoxes := newBoxes
      completedTasks := (newBoxes.map BoundingBox.label).toFinset }
  else s

/-- Embedding of `overwriteBoundingBoxes` (useSegmentationData.ts, lines
165-170): bulk replace, recomputing the completed set from the new labels. -/
def overwriteBoundingBoxes (s : SegmentationState) (boxes : List BoundingBox) : SegmentationState :=
  { boundingBoxes := boxes
    completedTasks := (boxes.map BoundingBox.label).toFinset }

/-- Embedding of `updateBoundingBox` (useSegmentationData.ts, lines 173-179),
specialised to the partial update actually passed by both call sites in
`segment/page.tsx`: `{enhancedS3Path, useEnhanced}`. -/
def updateBoundingBox (s : SegmentationState) (lbl : String) (newPath : String)
    (newUse : Bool) : SegmentationState :=
  { s with boundingBoxes := s.boundingBoxes.map fun box =>
      if box.label = lbl then
        { box with enhancedS3Path := some newPath, useEnhanced := some newUse }
      else box }

/-- C6: after `overwriteBoundingBoxes(boxes)`, the completed-task set is
exactly the set of distinct labels occurring in `boxes`. -/
theorem overwriteBoundingBoxes_completion (s : SegmentationState)
    (boxes : List BoundingBox) (l : String) :
    l ∈ (overwriteBoundingBoxes s boxes).completedTasks ↔ ∃ b ∈ boxes, b.label = l := by
  simp [overwriteBoundingBoxes, List.mem_toFinset]

/-- Counting helper: erasing position `i` removes exactly the one element
`l[i]` from the count of a predicate. -/
theorem countP_eraseIdx_add {α : Type} (l : List α) (i : ℕ) (hi : i < l.length)
    (p : α → Bool) :
    (l.eraseIdx i).countP p + (if p l[i] then 1 else 0) = l.countP p := by
  rw [List.eraseIdx_eq_take_drop_succ, List.countP_append]
  conv_rhs => rw [← List.take_append_drop i l, List.countP_append,
                  List.drop_eq_getElem_cons hi, List.countP_cons]
  omega

/-- C7: for an in-range index, `removeBoundingBoxByIndex` removes exactly the
box at that index and recomputes the completed set from the remaining labels;
if the removed box was the only one with its label the label leaves the set,
and if another box shares the label it stays. -/
theorem removeBoundingBoxByIndex_inRange (s : SegmentationState) (i : ℕ) (bi : BoundingBox)
    (h : s.boundingBoxes[i]? = some bi) :
    (removeBoundingBoxByIndex s (i : Int)).boundingBoxes = s.boundingBoxes.eraseIdx i ∧
    (∀ l, l ∈ (removeBoundingBoxByIndex s (i : Int)).completedTasks ↔
        ∃ b ∈ s.boundingBoxes.eraseIdx i, b.label = l) ∧
    (s.boundingBoxes.countP (fun b => b.label == bi.label) = 1 →
        bi.label ∉ (removeBoundingBoxByIndex s (i : Int)).completedTasks) ∧
    (2 ≤ s.boundingBoxes.countP (fun b => b.label == bi.label) →
        bi.label ∈ (removeBoundingBoxByIndex s (i : Int)).completedTasks) := by
  obtain ⟨hi, hget⟩ := List.getElem?_eq_some.mp h
  have hcond : 0 ≤ (i : Int) ∧ (i : Int).toNat < s.boundingBoxes.length := by
    refine ⟨Int.natCast_nonneg i, by simpa using hi⟩
  have hb : (removeBoundingBoxByIndex s (i : Int)).boundingBoxes = s.boundingBoxes.eraseIdx i := by
    simp [removeBoundingBoxByIndex, hi]
  have hcompl : ∀ l, l ∈ (removeBoundingBoxByIndex s (i : Int)).completedTasks ↔
      ∃ b ∈ s.boundingBoxes.eraseIdx i, b.label = l := by
    intro l
    simp [removeBoundingBoxByIndex, hi, List.mem_toFinset]
  have hcount := countP_eraseIdx_add s.boundingBoxes i hi (fun b => b.label == bi.label)
  rw [hget] at hcount
  simp only [beq_self_eq_true, if_true] at hcount
  refine ⟨hb, hcompl, ?_, ?_⟩
  · intro h1
    rw [hcompl]
    rintro ⟨b, hbmem, hbl⟩
    have hzero : (s.boundingBoxes.eraseIdx i).countP (fun b => b.label == bi.label) = 0 := by
      omega
    have := List.countP_eq_zero.mp hzero b hbmem
    simp [hbl] at this
  · intro h2
    have hpos : 0 < (s.boundingBoxes.eraseIdx i).countP (fun b => b.label == bi.label) := by
      omega
    obtain ⟨b, hbmem, hpb⟩ := List.countP_pos_iff.mp hpos
    rw [hcompl]
    exact ⟨b, hbmem, by simpa using hpb⟩

/-- Example box with label A covering the top-left quadrant. -/
def exBoxA1 : BoundingBox :=
  { x := 0, y := 0, width := 1/2, height := 1/2, label := "A", pageNumber := 1 }

/-- Second example box sharing label A. -/
def exBoxA2 : BoundingBox :=
  { x := 1/2, y := 0, width := 1/4, height := 1/4, label := "A", pageNumber := 1 }

/-- Example collection state holding two boxes with the same label. -/
def exRemoveState : SegmentationState :=
  { boundingBoxes := [exBoxA1, exBoxA2], completedTasks := {"A"} }

/-- Witness for C7: removing the first of two label-A boxes keeps label A in
the completed set. -/
theorem removeBoundingBoxByIndex_inRange_witness :
    exRemoveState.boundingBoxes[0]? = some exBoxA1 ∧
    ((removeBoundingBoxByIndex exRemoveState ((0 : ℕ) : Int)).boundingBoxes =
        exRemoveState.boundingBoxes.eraseIdx 0 ∧
     (∀ l, l ∈ (removeBoundingBoxByIndex exRemoveState ((0 : ℕ) : Int)).completedTasks ↔
        ∃ b ∈ exRemoveState.boundingBoxes.eraseIdx 0, b.label = l) ∧
     (exRemoveState.boundingBoxes.countP (fun b => b.label == exBoxA1.label) = 1 →
        exBoxA1.label ∉ (removeBoundingBoxByIndex exRemoveState ((0 : ℕ) : Int)).completedTasks) ∧
     (2 ≤ exRemoveState.boundingBoxes.countP (fun b => b.label == exBoxA1.label) →
        exBoxA1.label ∈ (removeBoundingBoxByIndex exRemoveState ((0 : ℕ) : Int)).completedTasks)) :=
  ⟨rfl, removeBoundingBoxByIndex_inRange exRemoveState 0 exBoxA1 rfl⟩

/-- C10: for an index outside the bounds of the collection (negative or past
the end), `removeBoundingBoxByIndex` is a no-op on the whole state and raises
no error. -/
theorem removeBoundingBoxByIndex_outOfRange (s : SegmentationState) (i : Int)
    (h : i < 0 ∨ (s.boundingBoxes.length : Int) ≤ i) :
    removeBoundingBoxByIndex s i = s := by
  unfold removeBoundingBoxByIndex
  rw [if_neg]
  rintro ⟨h0, hlt⟩
  rcases h with h | h <;> omega

/-- Witness for C10 at index -1 of a two-element collection. -/
theorem removeBoundingBoxByIndex_outOfRange_witness :
    ((-1 : Int) < 0 ∨ (exRemoveState.boundingBoxes.length : Int) ≤ -1) ∧
    removeBoundingBoxByIndex exRemoveState (-1) = exRemoveState :=
  ⟨Or.inl (by norm_num),
   removeBoundingBoxByIndex_outOfRange exRemoveState (-1) (Or.inl (by norm_num))⟩

/-- Wire shape of one persisted segmentation as built in `saveSegmentations`
(segment/page.tsx, lines 293-302). -/
structure ApiSegmentation where
  pageNumber : ℕ
  x : ℚ
  y : ℚ
  width : ℚ
  height : ℚ
  label : String
  enhanced_s3_path : Option String
  use_enhanced : Bool
deriving DecidableEq, Repr

/-- Per-box mapping in `saveSegmentations`: `box.enhancedS3Path || null`
(falsy empty string becomes null) and `box.useEnhanced || false`. -/
def toApiSegmentation (box : BoundingBox) : ApiSegmentation :=
  { pageNumber := box.pageNumber
    x := box.x
    y := box.y
    width := box.width
    height := box.height
    label := box.label
    enhanced_s3_path :=
      match box.enhancedS3Path with
      | some p => if p = "" then none else some p
      | none => none
    use_enhanced := box.useEnhanced.getD false }

/-- Observable outcome of one run of `saveSegmentations`: the payload POSTed
to the JobService (if any), whether the run finished without an error, and
whether it navigated back to the jobs list. -/
structure SaveOutcome where
  submitted : Option (List ApiSegmentation)
  success : Bool
  navigatedToJobs : Bool
deriving DecidableEq, Repr

/-- Embedding of `saveSegmentations` (segment/page.tsx, lines 287-333): the
POST to `/jobs/{jobId}/segmentations` happens only when the collection is
non-empty; `responseOk` models the network response, and a failed response
raises an error that is caught before the `router.push` call. -/
def saveSegmentations (boundingBoxes : List BoundingBox) (responseOk : Bool) : SaveOutcome :=
  if boundingBoxes.length > 0 then
    if responseOk then
      { submitted := some (boundingBoxes.map toApiSegmentation)
        success := true
        navigatedToJobs := true }
    else
      { submitted := some (boundingBoxes.map toApiSegmentation)
        success := false
        navigatedToJobs := false }
  else
    { submitted := none, success := true, navigatedToJobs := true }

/-- C3 counterexample: with an empty box collection `saveSegmentations`
delivers nothing to the JobService (`submitted = none`), while a singleton
collection is POSTed — so the zero-box submission is not delivered "just as a
non-empty one would be". -/
theorem saveSegmentations_empty_counterexample :
    (saveSegmentations [] true).submitted = none ∧
    (saveSegmentations [] true).success = true ∧
    (saveSegmentations [exBoxA1] true).submitted = some [toApiSegmentation exBoxA1] :=
  ⟨rfl, rfl, rfl⟩

/-- C3 (amended): invoking `saveSegmentations` with an empty collection
succeeds without error and still navigates back to the jobs list, but no
submission is delivered to the JobService: the POST is made only for a
non-empty collection, so the backend job is not advanced. -/
theorem saveSegmentations_empty (responseOk : Bool) :
    (saveSegmentations [] responseOk).submitted = none ∧
    (saveSegmentations [] responseOk).success = true ∧
    (saveSegmentations [] responseOk).navigatedToJobs = true :=
  ⟨rfl, rfl, rfl⟩

/-- Result of the enhancement request as stored by `handleEnhance`
(segment/page.tsx, lines 164-170 and 367-374). -/
structure EnhanceResult where
  label : String
  originalUrl : String
  enhancedUrl : String
  enhancedS3Path : String
  segmentationId : Option Int
deriving DecidableEq, Repr

/-- Page-level state relevant to the enhancement workflow in
`segment/page.tsx`. -/
structure EnhancePageState where
  seg : SegmentationState
  enhanceModalOpen : Bool
  enhancingLabel : Option String
  enhanceResult : Option EnhanceResult
deriving DecidableEq

/-- Synchronous prefix of `handleEnhance` (segment/page.tsx, lines 335-360):
mark the label as enhancing, open the modal, clear any previous result, and
bail out when no box carries the label.  The network response is a separate
event. -/
def handleEnhanceStart (s : EnhancePageState) (lbl : String) : EnhancePageState :=
  let s1 := { s with enhancingLabel := some lbl, enhanceModalOpen := true,
                     enhanceResult := none }
  match s1.seg.boundingBoxes.find? (fun b => b.label == lbl) with
  | none => { s1 with enhanceModalOpen := false, enhancingLabel := none }
  | some _ => s1

/-- Continuation of `handleEnhance` when its fetch resolves successfully
(segment/page.tsx, lines 367-380): store the result for the modal and clear
the in-flight marker.  The bounding-box collection is not touched. -/
def handleEnhanceResponse (s : EnhancePageState) (result : EnhanceResult) : EnhancePageState :=
  { s with enhanceResult := some result, enhancingLabel := none }

/-- Continuation of `handleEnhance` when its fetch fails (segment/page.tsx,
lines 375-380): only the in-flight marker is cleared. -/
def handleEnhanceFailure (s : EnhancePageState) : EnhancePageState :=
  { s with enhancingLabel := none }

/-- Embedding of `handleSelectOriginal` (segment/page.tsx, lines 383-407):
with a result present, a failing PATCH (when a server id exists) throws past
the local update; otherwise every box with the result's label is marked
`useEnhanced := false`.  The modal closes and the result is cleared either
way. -/
def handleSelectOriginal (s : EnhancePageState) (apiOk : Bool) : EnhancePageState :=
  match s.enhanceResult with
  | none => s
  | some r =>
      let s1 :=
        if r.segmentationId.isSome && !apiOk then s
        else { s with seg := updateBoundingBox s.seg r.label r.enhancedS3Path false }
      { s1 with enhanceModalOpen := false, enhanceResult := none }

/-- Embedding of `handleSelectEnhanced` (segment/page.tsx, lines 409-433),
symmetric to `handleSelectOriginal` with `useEnhanced := true`. -/
def handleSelectEnhanced (s : EnhancePageState) (apiOk : Bool) : EnhancePageState :=
  match s.enhanceResult with
  | none => s
  | some r =>
      let s1 :=
        if r.segmentationId.isSome && !apiOk then s
        else { s with seg := updateBoundingBox s.seg r.label r.enhancedS3Path true }
      { s1 with enhanceModalOpen := false, enhanceResult := none }

/-- C9: once the boxes of a label hold the confirmed `useEnhanced := false`,
the arrival of a slower, superseded enhancement response (for that label or
any other) leaves the bounding-box collection unchanged, so the confirmed
`useEnhanced := false` is never overwritten by the stale response. -/
theorem staleEnhanceResponse_preserves_useOriginal (s : EnhancePageState)
    (stale : EnhanceResult) (lbl : String)
    (h : ∀ b ∈ s.seg.boundingBoxes, b.label = lbl → b.useEnhanced = some false) :
    (handleEnhanceResponse s stale).seg.boundingBoxes = s.seg.boundingBoxes ∧
    ∀ b ∈ (handleEnhanceResponse s stale).seg.boundingBoxes,
      b.label = lbl → b.useEnhanced = some false :=
  ⟨rfl, h⟩

/-- Example box whose "use original" choice has been confirmed. -/
def exConfirmedBox : BoundingBox :=
  { x := 0, y := 0, width := 1/2, height := 1/2, label := "FIG-9", pageNumber := 1,
    enhancedS3Path := some "enhanced/fig9.png", useEnhanced := some false }

/-- Example page state after the user confirmed "use original" for FIG-9. -/
def exConfirmedState : EnhancePageState :=
  { seg := { boundingBoxes := [exConfirmedBox], completedTasks := {"FIG-9"} },
    enhanceModalOpen := false, enhancingLabel := none, enhanceResult := none }

/-- Example stale enhancement response for the same label. -/
def exStaleResult : EnhanceResult :=
  { label := "FIG-9", originalUrl := "orig.png", enhancedUrl := "enh.png",
    enhancedS3Path := "enhanced/fig9-v2.png", segmentationId := some 7 }

/-- Witness for C9: a stale FIG-9 response arriving after confirmation leaves
the confirmed box untouched. -/
theorem staleEnhanceResponse_preserves_useOriginal_witness :
    (∀ b ∈ exConfirmedState.seg.boundingBoxes,
       b.label = "FIG-9" → b.useEnhanced = some false) ∧
    ((handleEnhanceResponse exConfirmedState exStaleResult).seg.boundingBoxes =
        exConfirmedState.seg.boundingBoxes ∧
     ∀ b ∈ (handleEnhanceResponse exConfirmedState exStaleResult).seg.boundingBoxes,
       b.label = "FIG-9" → b.useEnhanced = some false) :=
  ⟨by simp [exConfirmedState, exConfirmedBox],
   staleEnhanceResponse_preserves_useOriginal exConfirmedState exStaleResult "FIG-9"
     (by simp [exConfirmedState, exConfirmedBox])⟩

end Handwriting
